import Mathlib

/-
Shallow embedding of src/src/lib.rs: a spin mutex built from an atomic
boolean flag and an interior-mutability cell holding the protected value.
Pure state is modelled by explicit state passing; the busy-wait loop of
lock is modelled with fuel; the multi-threaded increment workload is
modelled by a small-step interleaving relation.
-/

namespace Spin

/-- Rust std::sync::atomic::Ordering, as an enumeration. -/
inductive AtomicOrdering where
  | relaxed
  | release
  | acquire
  | acqRel
  | seqCst
  deriving DecidableEq

/-- The success ordering passed to compare_exchange in SpinMutex::lock
(src/src/lib.rs line 22): Ordering::Release. -/
def lockSuccessOrdering : AtomicOrdering := AtomicOrdering.release

/-- The failure ordering passed to compare_exchange in SpinMutex::lock
(src/src/lib.rs line 22): Ordering::Relaxed. -/
def lockFailureOrdering : AtomicOrdering := AtomicOrdering.relaxed

/-- The ordering passed to the store in Drop for SpinMutexGuard
(src/src/lib.rs line 48): Ordering::Release. -/
def dropStoreOrdering : AtomicOrdering := AtomicOrdering.release

/-- Whether an ordering has acquire semantics (establishes happens-before
with a prior release): Acquire, AcqRel or SeqCst. -/
def hasAcquireSemantics : AtomicOrdering → Bool
  | AtomicOrdering.acquire => true
  | AtomicOrdering.acqRel => true
  | AtomicOrdering.seqCst => true
  | _ => false

/-- AtomicBool::compare_exchange(current, new, _, _) on a flag holding b:
on success (b equals current) the flag becomes new and the previous value
is returned in Except.ok; on failure the flag is unchanged and the actual
value is returned in Except.error. Returns (result, new flag value). -/
def compareExchange (current new b : Bool) : Except Bool Bool × Bool :=
  if b = current then (Except.ok b, new) else (Except.error b, b)

/-- Result::is_ok_and from the Rust standard library. -/
def isOkAnd {e a : Type} (r : Except e a) (f : a → Bool) : Bool :=
  match r with
  | Except.ok v => f v
  | Except.error _ => false

/-- The exit condition of the while loop in SpinMutex::lock, computed from
the flag value b seen by this iteration:
compare_exchange(false, true, Release, Relaxed).is_ok_and(|v| v == true). -/
def lockExitCond (b : Bool) : Bool :=
  isOkAnd (compareExchange false true b).1 (fun v => v == true)

/-- SpinMutex<T>: the atomic flag (lock) and the protected payload (data),
as plain state. -/
structure SpinMutex (T : Type) where
  lock : Bool
  data : T
  deriving DecidableEq

/-- SpinMutex::new(data): flag initialized to false (Unlocked), payload
owned by the cell. -/
def SpinMutex.new {T : Type} (data : T) : SpinMutex T :=
  { lock := false, data := data }

/-- One iteration of the acquisition loop: execute the compare-exchange
(which may update the flag) and report the loop exit condition computed
from its result. -/
def lockAttempt {T : Type} (s : SpinMutex T) : SpinMutex T × Bool :=
  ({ s with lock := (compareExchange false true s.lock).2 }, lockExitCond s.lock)

/-- The while loop of SpinMutex::lock, with fuel: each iteration performs
the compare-exchange; the loop exits (returning the state in which the
guard is then created) when the exit condition holds, otherwise it spins
and retries. Returns none when the fuel runs out while still spinning. -/
def lockLoop {T : Type} : Nat → SpinMutex T → Option (SpinMutex T)
  | 0, _ => none
  | n + 1, s =>
    if (lockAttempt s).2 then some (lockAttempt s).1 else lockLoop n (lockAttempt s).1

/-- n iterations of the compare-exchange state effect of the acquisition
loop, ignoring the exit condition (used to state frame properties over any
number of spins). -/
def spinIter {T : Type} : Nat → SpinMutex T → SpinMutex T
  | 0, s => s
  | n + 1, s => spinIter n (lockAttempt s).1

/-- Deref for SpinMutexGuard: the read projection onto the protected
value. -/
def SpinMutexGuard.deref {T : Type} (s : SpinMutex T) : T := s.data

/-- A write through DerefMut for SpinMutexGuard: mutates the protected
value in place. -/
def SpinMutexGuard.derefMutSet {T : Type} (s : SpinMutex T) (v : T) : SpinMutex T :=
  { s with data := v }

/-- Drop for SpinMutexGuard: self.lock.store(false, Ordering::Release). -/
def SpinMutexGuard.drop {T : Type} (s : SpinMutex T) : SpinMutex T :=
  { s with lock := false }

/-- The sequential scenario of the spec: a cell initialized with "a"; lock,
write "b" through the guard, drop the guard; lock again, write "c", drop;
report the final protected value. Fueled because the acquisition loop may
spin. -/
def seqScenario (fuel : Nat) : Option String :=
  (lockLoop fuel (SpinMutex.new "a")).bind (fun s1 =>
    (lockLoop fuel (SpinMutexGuard.drop (SpinMutexGuard.derefMutSet s1 "b"))).bind (fun s2 =>
      some (SpinMutexGuard.drop (SpinMutexGuard.derefMutSet s2 "c")).data))

/-- Concurrency capabilities of a payload type T: whether T itself may be
sent to, or shared with, another thread. -/
structure PayloadCaps where
  send : Bool
  sync : Bool
  deriving DecidableEq

/-- Whether SpinMutex<T> is certified Send, as declared by the source
(src/src/lib.rs line 65): the impl has no bound on T, so the certification
holds for every payload. -/
def spinMutexSend (_ : PayloadCaps) : Bool := true

/-- Whether SpinMutex<T> is certified Sync, as declared by the source
(src/src/lib.rs line 66): the impl has no bound on T, so the certification
holds for every payload. -/
def spinMutexSync (_ : PayloadCaps) : Bool := true

/-- Program counter of a thread running the guarded-increment workload:
spinning inside lock, inside the critical section about to increment,
about to drop the guard, or finished. -/
inductive TPC where
  | locking
  | critical
  | dropping
  | done
  deriving DecidableEq

/-- A thread of the workload: its program counter and the number of guarded
increments it still has to complete (the current one included). -/
structure ThreadSt where
  pc : TPC
  todo : Nat
  deriving DecidableEq

/-- Global configuration: the mutex flag, the protected counter, and the
threads. -/
structure Config where
  lock : Bool
  data : Nat
  threads : List ThreadSt
  deriving DecidableEq

/-- A thread about to perform M guarded increments. -/
def initThread (M : Nat) : ThreadSt := { pc := TPC.locking, todo := M }

/-- N threads, each with M guarded increments, counter initialized to 0,
flag Unlocked. -/
def initConfig (N M : Nat) : Config :=
  { lock := false, data := 0, threads := List.replicate N (initThread M) }

/-- One step of a single thread against the shared flag and counter.
lockAttemptS is one iteration of the while loop in SpinMutex::lock (the
compare-exchange plus its exit test; on exit the guard is created and the
thread enters the critical section). incS is the increment through the
guard. dropS is Drop for SpinMutexGuard (store false) followed by either
finishing or starting the next lock call. -/
inductive TStep : Bool → Nat → ThreadSt → Bool → Nat → ThreadSt → Prop where
  | lockAttemptS (flag : Bool) (cnt todo : Nat) :
      TStep flag cnt { pc := TPC.locking, todo := todo }
        (compareExchange false true flag).2 cnt
        { pc := if lockExitCond flag then TPC.critical else TPC.locking, todo := todo }
  | incS (flag : Bool) (cnt todo : Nat) :
      TStep flag cnt { pc := TPC.critical, todo := todo }
        flag (cnt + 1) { pc := TPC.dropping, todo := todo }
  | dropS (flag : Bool) (cnt todo : Nat) :
      TStep flag cnt { pc := TPC.dropping, todo := todo }
        false cnt { pc := if todo ≤ 1 then TPC.done else TPC.locking, todo := todo - 1 }

/-- Interleaving: some thread takes a step, the others are unchanged. -/
inductive Step : Config → Config → Prop where
  | mk (l r : List ThreadSt) (lk : Bool) (d : Nat) (lk' : Bool) (d' : Nat)
      (t t' : ThreadSt) :
      TStep lk d t lk' d' t' →
      Step { lock := lk, data := d, threads := l ++ t :: r }
        { lock := lk', data := d', threads := l ++ t' :: r }

/-- Reachability under interleaved execution. -/
abbrev Reachable : Config → Config → Prop := Relation.ReflTransGen Step

/-- A thread currently holds the guard (it is in the critical section or
about to drop). -/
def isHolder (t : ThreadSt) : Bool := t.pc == TPC.critical || t.pc == TPC.dropping

/-- Number of live guards in a configuration. -/
def holders (c : Config) : Nat := c.threads.countP (fun t => isHolder t)

/-- Strengthened invariant of the workload under the source as written:
every thread is still spinning inside its first lock call and the counter
is untouched. -/
def allLocking (c : Config) : Prop :=
  (∀ t ∈ c.threads, t.pc = TPC.locking) ∧ c.data = 0

/-- The exit condition of the acquisition loop is false for every flag
value: on success the compare-exchange returns the previous value false,
and is_ok_and tests that value against true; on failure it returns an
error. -/
theorem lockExitCond_false (b : Bool) : lockExitCond b = false := by
  cases b <;> rfl

/-- The exit condition reported by lockAttempt is lockExitCond of the flag
seen by the iteration. -/
theorem lockAttempt_snd {T : Type} (s : SpinMutex T) :
    (lockAttempt s).2 = lockExitCond s.lock := rfl

/-- The acquisition loop never terminates, whatever the fuel and the
starting state. -/
theorem lockLoop_none {T : Type} (n : Nat) : ∀ s : SpinMutex T, lockLoop n s = none := by
  induction n with
  | zero => intro s; rfl
  | succ n ih =>
    intro s
    unfold lockLoop
    rw [lockAttempt_snd, lockExitCond_false]
    simp [ih]

/-- The initial configuration satisfies the strengthened invariant. -/
theorem allLocking_init (N M : Nat) : allLocking (initConfig N M) := by
  constructor
  · intro t ht
    have h := List.eq_of_mem_replicate ht
    subst h
    rfl
  · rfl

/-- The strengthened invariant is preserved by every interleaving step:
the loop iteration never satisfies its exit condition, so no thread ever
leaves the locking state, and the counter is never incremented. -/
theorem allLocking_step {c c' : Config} (hinv : allLocking c) (h : Step c c') :
    allLocking c' := by
  rcases h with ⟨l, r, lk, d, lk', d', t, t', ht⟩
  obtain ⟨hpc, hd⟩ := hinv
  have htmem : t ∈ l ++ t :: r := List.mem_append.mpr (Or.inr (List.mem_cons_self t r))
  cases ht with
  | lockAttemptS todo =>
    refine ⟨?_, hd⟩
    intro u hu
    rcases List.mem_append.mp hu with hl | hcr
    · exact hpc u (List.mem_append.mpr (Or.inl hl))
    · rcases List.mem_cons.mp hcr with h' | hr
      · subst h'
        simp [lockExitCond_false]
      · exact hpc u (List.mem_append.mpr (Or.inr (List.mem_cons_of_mem _ hr)))
  | incS todo =>
    exact absurd (hpc _ htmem) (by simp)
  | dropS todo =>
    exact absurd (hpc _ htmem) (by simp)

/-- Every configuration reachable from the initial one satisfies the
strengthened invariant. -/
theorem reachable_allLocking {N M : Nat} {c : Config}
    (h : Reachable (initConfig N M) c) : allLocking c := by
  induction h with
  | refl => exact allLocking_init N M
  | tail _ hbc ih => exact allLocking_step ih hbc

/-- Claim C1: the sequential round-trip scenario (cell initialized with
"a"; lock, mutate to "b", drop; lock again, mutate to "c", drop) should
terminate with protected value "c". As the source is written, the very
first lock call never returns (the loop exit condition is never
satisfied), so the scenario never completes, for any amount of fuel. -/
theorem seqScenario_never_completes (fuel : Nat) : seqScenario fuel = none := by
  unfold seqScenario
  rw [lockLoop_none]
  rfl

/-- Claim C2: the claim requires acquire semantics on the successful
compare-and-swap inside lock, but the source passes Ordering::Release as
the success ordering; the store in the guard drop does use
Ordering::Release as the claim states. -/
theorem lock_success_ordering_not_acquire :
    lockSuccessOrdering = AtomicOrdering.release ∧
    hasAcquireSemantics lockSuccessOrdering = false ∧
    dropStoreOrdering = AtomicOrdering.release ∧
    lockFailureOrdering = AtomicOrdering.relaxed := by
  refine ⟨rfl, rfl, rfl, rfl⟩

/-- Claim C3: the claim says N threads each performing M guarded
increments leave the counter at exactly N times M. As the source is
written, no thread ever exits the acquisition loop, so in every reachable
configuration the counter is still 0, and it never equals N times M. -/
theorem counter_never_reaches_goal (N M : Nat) (hN : 1 ≤ N) (hM : 1 ≤ M)
    (c : Config) (h : Reachable (initConfig N M) c) :
    c.data = 0 ∧ c.data ≠ N * M := by
  have h0 := (reachable_allLocking h).2
  refine ⟨h0, ?_⟩
  have hpos : 0 < N * M := Nat.mul_pos hN hM
  omega

/-- Witness for C3 at N = 1, M = 1 and the initial configuration. -/
theorem counter_never_reaches_goal_witness :
    (initConfig 1 1).data = 0 ∧ (initConfig 1 1).data ≠ 1 * 1 :=
  counter_never_reaches_goal 1 1 (by decide) (by decide) (initConfig 1 1)
    Relation.ReflTransGen.refl

/-- Claim C4: the guard destructor stores false into the flag, so after a
drop the flag reads Unlocked, whatever the state was before; in the
embedding the release action is the single function SpinMutexGuard.drop,
applied once per guard. -/
theorem drop_releases_flag (b : Bool) (v : Nat) :
    (SpinMutexGuard.drop { lock := b, data := v }).lock = false := rfl

/-- Claim C5: new(v) yields a cell whose flag is Unlocked and whose
payload is exactly v, for every value of every type; the construction is
total. -/
theorem new_postcondition {T : Type} (v : T) :
    (SpinMutex.new v).lock = false ∧ (SpinMutex.new v).data = v :=
  ⟨rfl, rfl⟩

/-- Claim C6: the compare-exchange inside lock changes the flag only from
false to true, the guard drop changes it only from true to false, these
are the only flag operations in the source, and neither state is terminal:
from Unlocked the compare-exchange reaches Locked and from Locked the drop
reaches Unlocked. -/
theorem flag_state_machine :
    (∀ b : Bool, (compareExchange false true b).2 ≠ b →
      b = false ∧ (compareExchange false true b).2 = true) ∧
    (∀ (b : Bool) (v : Nat),
      (SpinMutexGuard.drop { lock := b, data := v }).lock ≠ b →
      b = true ∧ (SpinMutexGuard.drop { lock := b, data := v }).lock = false) ∧
    (compareExchange false true false).2 = true ∧
    (SpinMutexGuard.drop { lock := true, data := (0 : Nat) }).lock = false := by
  refine ⟨?_, ?_, rfl, rfl⟩
  · intro b
    cases b <;> simp [compareExchange]
  · intro b v
    cases b <;> simp [SpinMutexGuard.drop]

/-- Witness for C6: the compare-exchange from Unlocked and the drop from
Locked, at concrete states. -/
theorem flag_state_machine_witness :
    (false = false ∧ (compareExchange false true false).2 = true) ∧
    (true = true ∧
      (SpinMutexGuard.drop { lock := true, data := (0 : Nat) }).lock = false) :=
  ⟨flag_state_machine.1 false (by decide), flag_state_machine.2.1 true 0 (by decide)⟩

/-- Claim C7: in every reachable configuration at most one live guard
exists and a live guard implies the flag is Locked; moreover a thread
becomes a guard holder only through a lock iteration whose exit condition
(the successful acquisition test) holds. As the source is written no
acquisition ever succeeds, so the number of live guards is in fact always
zero. -/
theorem guard_invariant (N M : Nat) :
    (∀ c, Reachable (initConfig N M) c →
      holders c ≤ 1 ∧ (0 < holders c → c.lock = true)) ∧
    (∀ (flag : Bool) (cnt : Nat) (t : ThreadSt) (flag' : Bool) (cnt' : Nat)
      (t' : ThreadSt), TStep flag cnt t flag' cnt' t' → isHolder t' = true →
      isHolder t = true ∨ (t.pc = TPC.locking ∧ lockExitCond flag = true)) := by
  constructor
  · intro c hc
    have hpc := (reachable_allLocking hc).1
    have h0 : holders c = 0 := by
      unfold holders
      rw [List.countP_eq_zero]
      intro t ht
      have hl := hpc t ht
      simp [isHolder, hl]
    rw [h0]
    exact ⟨Nat.zero_le 1, by intro h; exact absurd h (by simp)⟩
  · intro flag cnt t flag' cnt' t' hstep hht
    cases hstep with
    | lockAttemptS todo =>
      rw [lockExitCond_false] at hht
      simp [isHolder] at hht
    | incS todo => exact Or.inl rfl
    | dropS todo => exact Or.inl rfl

/-- Witness for C7 at N = 1, M = 1 and the initial configuration. -/
theorem guard_invariant_witness :
    holders (initConfig 1 1) ≤ 1 ∧
    (0 < holders (initConfig 1 1) → (initConfig 1 1).lock = true) :=
  (guard_invariant 1 1).1 (initConfig 1 1) Relation.ReflTransGen.refl

/-- Claim C8: reading through the guard returns the current protected
value, and writing v through the guard then reading returns v. -/
theorem guard_projections {T : Type} (s : SpinMutex T) (v : T) :
    SpinMutexGuard.deref s = s.data ∧
    SpinMutexGuard.deref (SpinMutexGuard.derefMutSet s v) = v :=
  ⟨rfl, rfl⟩

/-- Claim C9: the claim says the Send and Sync certifications are
conditional on the payload tolerating cross-thread use; the impls in the
source carry no bound on the payload type, so even a payload with no
cross-thread capability at all is certified. -/
theorem send_sync_unconditional :
    (∀ caps : PayloadCaps, spinMutexSend caps = true ∧ spinMutexSync caps = true) ∧
    spinMutexSend { send := false, sync := false } = true ∧
    spinMutexSync { send := false, sync := false } = true :=
  ⟨fun _ => ⟨rfl, rfl⟩, rfl, rfl⟩

/-- Claim C10: any number of iterations of the acquisition loop leaves the
protected payload unchanged, and so does the guard drop; neither operation
reads or writes the payload. -/
theorem lock_and_drop_frame {T : Type} (n : Nat) (s : SpinMutex T) :
    (spinIter n s).data = s.data ∧ (SpinMutexGuard.drop s).data = s.data := by
  refine ⟨?_, rfl⟩
  induction n generalizing s with
  | zero => rfl
  | succ n ih =>
    unfold spinIter
    rw [ih]
    rfl

end Spin
